import Mathlib

/-!
Verification of the niriscript IPC client (`src/ipc.rs`).

The development shallowly embeds the session/correlation core of the
client: the JSON values travelling on the compositor socket, the
line-oriented event stream, the bootstrap drain `sync_initial_state`,
the spawn correlation loop `Niri.spawn`, and the fire-and-forget
command verbs dispatched through `send_action`.
-/

/-- JSON values as produced by serde_json.  Numbers are split the way the
client observes them: unsigned integers (the only numbers it ever reads,
via `as_u64`) and floating-point parameters it only ever writes. -/
inductive Json where
  | null
  | bool (b : Bool)
  | num (n : Nat)
  | float (x : Float)
  | str (s : String)
  | arr (elems : List Json)
  | obj (fields : List (String × Json))

/-- `serde_json::Value::get(key)`: field lookup on an object, `none` on
any other value. -/
def Json.get : Json → String → Option Json
  | .obj fields, key => fields.lookup key
  | _, _ => none

/-- `Value::as_u64`. -/
def Json.as_u64 : Json → Option Nat
  | .num n => some n
  | _ => none

/-- `Value::as_str`. -/
def Json.as_str : Json → Option String
  | .str s => some s
  | _ => none

/-- `Value::as_array`. -/
def Json.as_array : Json → Option (List Json)
  | .arr elems => some elems
  | _ => none

/-- One observation made by `read_line` + `serde_json::from_str` on the
event-stream connection.  `readErr` is a failed read (`read_line`
returned `Err`: timeout or connection-level failure); `emptyLine` is a
successful read whose line trims to empty; `malformed` is a non-empty
line that is not valid JSON; `event j` is a line parsing to `j`. -/
inductive StreamItem where
  | readErr
  | emptyLine
  | malformed
  | event (j : Json)

/-- Insertion of every listed window id into the registry: the body of
the `for w in windows` loop of `sync_initial_state` (`ipc.rs:49-53`). -/
def insertIds (reg : Finset Nat) : List Json → Finset Nat
  | [] => reg
  | w :: ws =>
    match (w.get "id").bind Json.as_u64 with
    | none => insertIds reg ws
    | some id => insertIds (insert id reg) ws

/-- The bootstrap drain loop of `sync_initial_state` (`ipc.rs:46-57`):
read lines until a read fails (the 100 ms deadline fires) or a line
trims to empty; parse failures are skipped; every `WindowsChanged`
array has its window ids inserted.  Returns the registry and the
unread remainder of the stream. -/
def sync_loop (reg : Finset Nat) : List StreamItem → Finset Nat × List StreamItem
  | [] => (reg, [])
  | .readErr :: rest => (reg, rest)
  | .emptyLine :: rest => (reg, rest)
  | .malformed :: rest => sync_loop reg rest
  | .event j :: rest =>
    match (j.get "WindowsChanged").bind Json.as_array with
    | none => sync_loop reg rest
    | some windows => sync_loop (insertIds reg windows) rest

/-- Result of the spawn correlation loop.  `matched id` is the
`return self` at `ipc.rs:92`; `streamFailed` is the `break` on a failed
read at `ipc.rs:76-78`; `exhausted` marks the end of the modelled
stream with the loop still waiting (the real loop would block on the
next read). -/
inductive SpawnOutcome where
  | matched (id : Nat)
  | streamFailed
  | exhausted
deriving DecidableEq

/-- State in which the spawn correlation loop hands control back:
outcome, registry, and the unread remainder of the stream. -/
structure LoopOut where
  outcome : SpawnOutcome
  reg : Finset Nat
  rest : List StreamItem

/-- The match test applied to one decoded event inside the spawn
correlation loop (`ipc.rs:83-96`): the event must be a
`WindowOpenedOrChanged`, the payload's optional `"window"` wrapper is
unwrapped, the window must carry a `u64` id that is not yet in the
registry, and its `app_id` must equal the requested identity.  Every
non-match path is a `continue` of the loop, collapsed here to `none`. -/
def matchEvent (app_id : String) (reg : Finset Nat) (j : Json) : Option Nat :=
  match j.get "WindowOpenedOrChanged" with
  | none => none
  | some wrapper =>
    let win := (wrapper.get "window").getD wrapper
    match (win.get "id").bind Json.as_u64 with
    | none => none
    | some id =>
      if id ∈ reg then none
      else
        match (win.get "app_id").bind Json.as_str with
        | none => none
        | some aid => if aid = app_id then some id else none

/-- The spawn correlation loop (`ipc.rs:74-97`), after the `Spawn`
action has been dispatched.  Each line: on read failure break; on parse
failure continue; on a matching `WindowOpenedOrChanged` event insert
the id into the registry and return. -/
def spawnLoop (app_id : String) (reg : Finset Nat) : List StreamItem → LoopOut
  | [] => ⟨.exhausted, reg, []⟩
  | .readErr :: rest => ⟨.streamFailed, reg, rest⟩
  | .emptyLine :: rest => spawnLoop app_id reg rest
  | .malformed :: rest => spawnLoop app_id reg rest
  | .event j :: rest =>
    match matchEvent app_id reg j with
    | none => spawnLoop app_id reg rest
    | some id => ⟨.matched id, insert id reg, rest⟩

/-- A window object `{"id": i}` as listed in a `WindowsChanged` payload. -/
def mkWin (i : Nat) : Json := .obj [("id", .num i)]

/-- A bulk `WindowsChanged` event listing the given window ids. -/
def mkWindowsChanged (ids : List Nat) : Json :=
  .obj [("WindowsChanged", .arr (ids.map mkWin))]

/-- A bulk `WindowsChanged` event as it appears on the stream. -/
def wcItem (ids : List Nat) : StreamItem := .event (mkWindowsChanged ids)

/-- A `WindowOpenedOrChanged` event with the window fields nested under
the `"window"` key. -/
def wocWrapped (i : Nat) (aid : String) : Json :=
  .obj [("WindowOpenedOrChanged",
    .obj [("window", .obj [("id", .num i), ("app_id", .str aid)])])]

/-- A `WindowOpenedOrChanged` event with the window fields directly at
the top level of the payload. -/
def wocFlat (i : Nat) (aid : String) : Json :=
  .obj [("WindowOpenedOrChanged", .obj [("id", .num i), ("app_id", .str aid)])]

/-- A `WindowOpenedOrChanged` event whose payload carries an id but no
`app_id` attribute. -/
def wocNoApp (i : Nat) : Json :=
  .obj [("WindowOpenedOrChanged", .obj [("window", .obj [("id", .num i)])])]

/-- The serialized form of the external `niri_ipc` argument types; they
are encoded by serde outside this repository, so the embedding carries
them as already-serialized JSON values. -/
abbrev LayoutSwitchTarget := Json

/-- Serialized `niri_ipc::ColumnDisplay`. -/
abbrev ColumnDisplay := Json

/-- Serialized `niri_ipc::SizeChange`. -/
abbrev SizeChange := Json

/-- Serialized `niri_ipc::PositionChange`. -/
abbrev PositionChange := Json

/-- Serialized `niri_ipc::WorkspaceReferenceArg`. -/
abbrev WorkspaceReferenceArg := Json

/-- serde encoding of `Option<u64>` / `Option<usize>` / `Option<u16>`:
`None` becomes JSON null. -/
def Json.ofOptNat : Option Nat → Json
  | none => .null
  | some n => .num n

/-- serde encoding of `Option<String>`: `None` becomes JSON null. -/
def Json.ofOptStr : Option String → Json
  | none => .null
  | some s => .str s

/-- serde encoding of an `Option` of an external type already carried
as JSON: `None` becomes JSON null. -/
def Json.ofOpt : Option Json → Json
  | none => .null
  | some j => j

/-- The session (`struct Niri`, `ipc.rs:10-14`): endpoint path, the
set of already-seen window identifiers, and the unread remainder of the
long-lived event stream. -/
structure Niri where
  socket_path : String
  seen_windows : Finset Nat
  events : List StreamItem

/-- A spawn request (`struct App`, `ipc.rs:16-19`). -/
structure App where
  cmd : String
  id : String

/-- `Niri::send_action` (`ipc.rs:61-67`): wrap the verb payload in an
`Action` envelope and write it on a fresh connection.  The session is
untouched (`&self`); the returned list is the documents written. -/
def Niri.send_action (n : Niri) (json_val : Json) : Niri × List Json :=
  (n, [Json.obj [("Action", json_val)]])

/-- `Niri::sync_initial_state` (`ipc.rs:39-59`): drain the event stream
under the short read deadline, inserting every id listed in each
`WindowsChanged` event. -/
def Niri.sync_initial_state (n : Niri) : Niri :=
  let out := sync_loop n.seen_windows n.events
  { n with seen_windows := out.1, events := out.2 }

/-- `str::split_whitespace` as used on `app.cmd` (`ipc.rs:70`). -/
def split_whitespace (s : String) : List String :=
  (s.split Char.isWhitespace).filter (fun t => t ≠ "")

/-- `Niri::spawn` (`ipc.rs:69-99`): dispatch the `Spawn` action, then
run the correlation loop over the event stream. -/
def Niri.spawn (n : Niri) (app : App) : Niri × List Json :=
  let sent :=
    (n.send_action (Json.obj [("Spawn", Json.obj
      [("command", Json.arr ((split_whitespace app.cmd).map Json.str))])])).2
  let out := spawnLoop app.id n.seen_windows n.events
  ({ n with seen_windows := out.reg, events := out.rest }, sent)

/-- `Niri::spawn_args` (`ipc.rs:101-104`). -/
def Niri.spawn_args (n : Niri) (cmd : List String) : Niri × List Json :=
  n.send_action (Json.obj [("Spawn", Json.obj [("command", Json.arr (cmd.map Json.str))])])

/-- `Niri::sh` (`ipc.rs:106-109`). -/
def Niri.sh (n : Niri) (cmd : String) : Niri × List Json :=
  n.send_action (Json.obj [("SpawnSh", Json.obj [("command", Json.str cmd)])])

/-- `Niri::quit`. -/
def Niri.quit (n : Niri) (skip_confirm : Bool) : Niri × List Json :=
  n.send_action (Json.obj [("Quit", Json.obj [("skip_confirmation", Json.bool skip_confirm)])])

/-- `Niri::reload_config`. -/
def Niri.reload_config (n : Niri) : Niri × List Json :=
  n.send_action (Json.obj [("LoadConfigFile", Json.obj [])])

/-- `Niri::foc_l`. -/
def Niri.foc_l (n : Niri) : Niri × List Json :=
  n.send_action (Json.obj [("FocusColumnLeft", Json.obj [])])

/-- `Niri::foc_r`. -/
def Niri.foc_r (n : Niri) : Niri × List Json :=
  n.send_action (Json.obj [("FocusColumnRight", Json.obj [])])

/-- `Niri::foc_u`. -/
def Niri.foc_u (n : Niri) : Niri × List Json :=
  n.send_action (Json.obj [("FocusWindowUp", Json.obj [])])

/-- `Niri::foc_d`. -/
def Niri.foc_d (n : Niri) : Niri × List Json :=
  n.send_action (Json.obj [("FocusWindowDown", Json.obj [])])

/-- `Niri::foc_id`. -/
def Niri.foc_id (n : Niri) (id : Nat) : Niri × List Json :=
  n.send_action (Json.obj [("FocusWindow", Json.obj [("id", Json.num id)])])

/-- `Niri::foc_idx`. -/
def Niri.foc_idx (n : Niri) (idx : Nat) : Niri × List Json :=
  n.send_action (Json.obj [("FocusWindowInColumn", Json.obj [("index", Json.num idx)])])

/-- `Niri::foc_prev`. -/
def Niri.foc_prev (n : Niri) : Niri × List Json :=
  n.send_action (Json.obj [("FocusWindowPrevious", Json.obj [])])

/-- `Niri::foc_top`. -/
def Niri.foc_top (n : Niri) : Niri × List Json :=
  n.send_action (Json.obj [("FocusWindowTop", Json.obj [])])

/-- `Niri::foc_bottom`. -/
def Niri.foc_bottom (n : Niri) : Niri × List Json :=
  n.send_action (Json.obj [("FocusWindowBottom", Json.obj [])])

/-- `Niri::foc_col_idx`. -/
def Niri.foc_col_idx (n : Niri) (idx : Nat) : Niri × List Json :=
  n.send_action (Json.obj [("FocusColumn", Json.obj [("index", Json.num idx)])])

/-- `Niri::foc_col_first`. -/
def Niri.foc_col_first (n : Niri) : Niri × List Json :=
  n.send_action (Json.obj [("FocusColumnFirst", Json.obj [])])

/-- `Niri::foc_col_last`. -/
def Niri.foc_col_last (n : Niri) : Niri × List Json :=
  n.send_action (Json.obj [("FocusColumnLast", Json.obj [])])

/-- `Niri::foc_col_next_loop`. -/
def Niri.foc_col_next_loop (n : Niri) : Niri × List Json :=
  n.send_action (Json.obj [("FocusColumnRightOrFirst", Json.obj [])])

/-- `Niri::foc_col_prev_loop`. -/
def Niri.foc_col_prev_loop (n : Niri) : Niri × List Json :=
  n.send_action (Json.obj [("FocusColumnLeftOrLast", Json.obj [])])

/-- `Niri::foc_win_mon_u`. -/
def Niri.foc_win_mon_u (n : Niri) : Niri × List Json :=
  n.send_action (Json.obj [("FocusWindowOrMonitorUp", Json.obj [])])

/-- `Niri::foc_win_mon_d`. -/
def Niri.foc_win_mon_d (n : Niri) : Niri × List Json :=
  n.send_action (Json.obj [("FocusWindowOrMonitorDown", Json.obj [])])

/-- `Niri::foc_col_mon_l`. -/
def Niri.foc_col_mon_l (n : Niri) : Niri × List Json :=
  n.send_action (Json.obj [("FocusColumnOrMonitorLeft", Json.obj [])])

/-- `Niri::foc_col_mon_r`. -/
def Niri.foc_col_mon_r (n : Niri) : Niri × List Json :=
  n.send_action (Json.obj [("FocusColumnOrMonitorRight", Json.obj [])])

/-- `Niri::foc_d_col_l`. -/
def Niri.foc_d_col_l (n : Niri) : Niri × List Json :=
  n.send_action (Json.obj [("FocusWindowDownOrColumnLeft", Json.obj [])])

/-- `Niri::foc_d_col_r`. -/
def Niri.foc_d_col_r (n : Niri) : Niri × List Json :=
  n.send_action (Json.obj [("FocusWindowDownOrColumnRight", Json.obj [])])

/-- `Niri::foc_u_col_l`. -/
def Niri.foc_u_col_l (n : Niri) : Niri × List Json :=
  n.send_action (Json.obj [("FocusWindowUpOrColumnLeft", Json.obj [])])

/-- `Niri::foc_u_col_r`. -/
def Niri.foc_u_col_r (n : Niri) : Niri × List Json :=
  n.send_action (Json.obj [("FocusWindowUpOrColumnRight", Json.obj [])])

/-- `Niri::foc_wspace_d`. -/
def Niri.foc_wspace_d (n : Niri) : Niri × List Json :=
  n.send_action (Json.obj [("FocusWindowOrWorkspaceDown", Json.obj [])])

/-- `Niri::foc_wspace_u`. -/
def Niri.foc_wspace_u (n : Niri) : Niri × List Json :=
  n.send_action (Json.obj [("FocusWindowOrWorkspaceUp", Json.obj [])])

/-- `Niri::mv_win_u`. -/
def Niri.mv_win_u (n : Niri) : Niri × List Json :=
  n.send_action (Json.obj [("MoveWindowUp", Json.obj [])])

/-- `Niri::mv_win_d`. -/
def Niri.mv_win_d (n : Niri) : Niri × List Json :=
  n.send_action (Json.obj [("MoveWindowDown", Json.obj [])])

/-- `Niri::mv_win_u_wspace`. -/
def Niri.mv_win_u_wspace (n : Niri) : Niri × List Json :=
  n.send_action (Json.obj [("MoveWindowUpOrToWorkspaceUp", Json.obj [])])

/-- `Niri::mv_win_d_wspace`. -/
def Niri.mv_win_d_wspace (n : Niri) : Niri × List Json :=
  n.send_action (Json.obj [("MoveWindowDownOrToWorkspaceDown", Json.obj [])])

/-- `Niri::mv_col_l`. -/
def Niri.mv_col_l (n : Niri) : Niri × List Json :=
  n.send_action (Json.obj [("MoveColumnLeft", Json.obj [])])

/-- `Niri::mv_col_r`. -/
def Niri.mv_col_r (n : Niri) : Niri × List Json :=
  n.send_action (Json.obj [("MoveColumnRight", Json.obj [])])

/-- `Niri::mv_col_first`. -/
def Niri.mv_col_first (n : Niri) : Niri × List Json :=
  n.send_action (Json.obj [("MoveColumnToFirst", Json.obj [])])

/-- `Niri::mv_col_last`. -/
def Niri.mv_col_last (n : Niri) : Niri × List Json :=
  n.send_action (Json.obj [("MoveColumnToLast", Json.obj [])])

/-- `Niri::mv_col_idx`. -/
def Niri.mv_col_idx (n : Niri) (idx : Nat) : Niri × List Json :=
  n.send_action (Json.obj [("MoveColumnToIndex", Json.obj [("index", Json.num idx)])])

/-- `Niri::mv_col_l_mon`. -/
def Niri.mv_col_l_mon (n : Niri) : Niri × List Json :=
  n.send_action (Json.obj [("MoveColumnLeftOrToMonitorLeft", Json.obj [])])

/-- `Niri::mv_col_r_mon`. -/
def Niri.mv_col_r_mon (n : Niri) : Niri × List Json :=
  n.send_action (Json.obj [("MoveColumnRightOrToMonitorRight", Json.obj [])])

/-- `Niri::consume`. -/
def Niri.consume (n : Niri) : Niri × List Json :=
  n.send_action (Json.obj [("ConsumeWindowIntoColumn", Json.obj [])])

/-- `Niri::consume_expel_l`. -/
def Niri.consume_expel_l (n : Niri) (id : Option Nat) : Niri × List Json :=
  n.send_action (Json.obj [("ConsumeOrExpelWindowLeft", Json.obj [("id", Json.ofOptNat id)])])

/-- `Niri::consume_expel_r`. -/
def Niri.consume_expel_r (n : Niri) (id : Option Nat) : Niri × List Json :=
  n.send_action (Json.obj [("ConsumeOrExpelWindowRight", Json.obj [("id", Json.ofOptNat id)])])

/-- `Niri::expel`. -/
def Niri.expel (n : Niri) : Niri × List Json :=
  n.send_action (Json.obj [("ExpelWindowFromColumn", Json.obj [])])

/-- `Niri::swap_l`. -/
def Niri.swap_l (n : Niri) : Niri × List Json :=
  n.send_action (Json.obj [("SwapWindowLeft", Json.obj [])])

/-- `Niri::swap_r`. -/
def Niri.swap_r (n : Niri) : Niri × List Json :=
  n.send_action (Json.obj [("SwapWindowRight", Json.obj [])])

/-- `Niri::layout_switch`. -/
def Niri.layout_switch (n : Niri) (target : LayoutSwitchTarget) : Niri × List Json :=
  n.send_action (Json.obj [("SwitchLayout", Json.obj [("layout", target)])])

/-- `Niri::toggle_tab`. -/
def Niri.toggle_tab (n : Niri) : Niri × List Json :=
  n.send_action (Json.obj [("ToggleColumnTabbedDisplay", Json.obj [])])

/-- `Niri::col_display`. -/
def Niri.col_display (n : Niri) (mode : ColumnDisplay) : Niri × List Json :=
  n.send_action (Json.obj [("SetColumnDisplay", Json.obj [("display", mode)])])

/-- `Niri::center_col`. -/
def Niri.center_col (n : Niri) : Niri × List Json :=
  n.send_action (Json.obj [("CenterColumn", Json.obj [])])

/-- `Niri::center_win`. -/
def Niri.center_win (n : Niri) (id : Option Nat) : Niri × List Json :=
  n.send_action (Json.obj [("CenterWindow", Json.obj [("id", Json.ofOptNat id)])])

/-- `Niri::center_vis_cols`. -/
def Niri.center_vis_cols (n : Niri) : Niri × List Json :=
  n.send_action (Json.obj [("CenterVisibleColumns", Json.obj [])])

/-- `Niri::col_width`. -/
def Niri.col_width (n : Niri) (val : Float) : Niri × List Json :=
  n.send_action (Json.obj [("SetColumnWidth",
    Json.obj [("change", Json.obj [("SetProportion", Json.float val)])])])

/-- `Niri::col_max`. -/
def Niri.col_max (n : Niri) : Niri × List Json :=
  n.send_action (Json.obj [("MaximizeColumn", Json.obj [])])

/-- `Niri::expand_col`. -/
def Niri.expand_col (n : Niri) : Niri × List Json :=
  n.send_action (Json.obj [("ExpandColumnToAvailableWidth", Json.obj [])])

/-- `Niri::preset_col_width`. -/
def Niri.preset_col_width (n : Niri) : Niri × List Json :=
  n.send_action (Json.obj [("SwitchPresetColumnWidth", Json.obj [])])

/-- `Niri::preset_col_width_back`. -/
def Niri.preset_col_width_back (n : Niri) : Niri × List Json :=
  n.send_action (Json.obj [("SwitchPresetColumnWidthBack", Json.obj [])])

/-- `Niri::win_width`. -/
def Niri.win_width (n : Niri) (id : Option Nat) (c : SizeChange) : Niri × List Json :=
  n.send_action (Json.obj [("SetWindowWidth", Json.obj [("id", Json.ofOptNat id), ("change", c)])])

/-- `Niri::win_height`. -/
def Niri.win_height (n : Niri) (val : Float) : Niri × List Json :=
  n.send_action (Json.obj [("SetWindowHeight",
    Json.obj [("change", Json.obj [("SetProportion", Json.float val)])])])

/-- `Niri::reset_win_height`. -/
def Niri.reset_win_height (n : Niri) (id : Option Nat) : Niri × List Json :=
  n.send_action (Json.obj [("ResetWindowHeight", Json.obj [("id", Json.ofOptNat id)])])

/-- `Niri::max_win_edge`. -/
def Niri.max_win_edge (n : Niri) (id : Option Nat) : Niri × List Json :=
  n.send_action (Json.obj [("MaximizeWindowToEdges", Json.obj [("id", Json.ofOptNat id)])])

/-- `Niri::preset_win_width`. -/
def Niri.preset_win_width (n : Niri) (id : Option Nat) : Niri × List Json :=
  n.send_action (Json.obj [("SwitchPresetWindowWidth", Json.obj [("id", Json.ofOptNat id)])])

/-- `Niri::preset_win_width_back`. -/
def Niri.preset_win_width_back (n : Niri) (id : Option Nat) : Niri × List Json :=
  n.send_action (Json.obj [("SwitchPresetWindowWidthBack", Json.obj [("id", Json.ofOptNat id)])])

/-- `Niri::preset_win_height`. -/
def Niri.preset_win_height (n : Niri) (id : Option Nat) : Niri × List Json :=
  n.send_action (Json.obj [("SwitchPresetWindowHeight", Json.obj [("id", Json.ofOptNat id)])])

/-- `Niri::preset_win_height_back`. -/
def Niri.preset_win_height_back (n : Niri) (id : Option Nat) : Niri × List Json :=
  n.send_action (Json.obj [("SwitchPresetWindowHeightBack", Json.obj [("id", Json.ofOptNat id)])])

/-- `Niri::close`. -/
def Niri.close (n : Niri) (id : Option Nat) : Niri × List Json :=
  n.send_action (Json.obj [("CloseWindow", Json.obj [("id", Json.ofOptNat id)])])

/-- `Niri::fullscreen`. -/
def Niri.fullscreen (n : Niri) (id : Option Nat) : Niri × List Json :=
  n.send_action (Json.obj [("FullscreenWindow", Json.obj [("id", Json.ofOptNat id)])])

/-- `Niri::fake_fullscreen`. -/
def Niri.fake_fullscreen (n : Niri) (id : Option Nat) : Niri × List Json :=
  n.send_action (Json.obj [("ToggleWindowedFullscreen", Json.obj [("id", Json.ofOptNat id)])])

/-- `Niri::opacity_toggle`. -/
def Niri.opacity_toggle (n : Niri) (id : Option Nat) : Niri × List Json :=
  n.send_action (Json.obj [("ToggleWindowRuleOpacity", Json.obj [("id", Json.ofOptNat id)])])

/-- `Niri::float_toggle`. -/
def Niri.float_toggle (n : Niri) (id : Option Nat) : Niri × List Json :=
  n.send_action (Json.obj [("ToggleWindowFloating", Json.obj [("id", Json.ofOptNat id)])])

/-- `Niri::mv_float`. -/
def Niri.mv_float (n : Niri) (id : Option Nat) : Niri × List Json :=
  n.send_action (Json.obj [("MoveWindowToFloating", Json.obj [("id", Json.ofOptNat id)])])

/-- `Niri::mv_tile`. -/
def Niri.mv_tile (n : Niri) (id : Option Nat) : Niri × List Json :=
  n.send_action (Json.obj [("MoveWindowToTiling", Json.obj [("id", Json.ofOptNat id)])])

/-- `Niri::foc_float`. -/
def Niri.foc_float (n : Niri) : Niri × List Json :=
  n.send_action (Json.obj [("FocusFloating", Json.obj [])])

/-- `Niri::foc_tile`. -/
def Niri.foc_tile (n : Niri) : Niri × List Json :=
  n.send_action (Json.obj [("FocusTiling", Json.obj [])])

/-- `Niri::foc_float_tile_switch`. -/
def Niri.foc_float_tile_switch (n : Niri) : Niri × List Json :=
  n.send_action (Json.obj [("SwitchFocusBetweenFloatingAndTiling", Json.obj [])])

/-- `Niri::mv_float_win`. -/
def Niri.mv_float_win (n : Niri) (id : Option Nat) (x y : PositionChange) : Niri × List Json :=
  n.send_action (Json.obj [("MoveFloatingWindow",
    Json.obj [("id", Json.ofOptNat id), ("x", x), ("y", y)])])

/-- `Niri::urgent_toggle`. -/
def Niri.urgent_toggle (n : Niri) (id : Nat) : Niri × List Json :=
  n.send_action (Json.obj [("ToggleWindowUrgent", Json.obj [("id", Json.num id)])])

/-- `Niri::urgent_set`. -/
def Niri.urgent_set (n : Niri) (id : Nat) : Niri × List Json :=
  n.send_action (Json.obj [("SetWindowUrgent", Json.obj [("id", Json.num id)])])

/-- `Niri::urgent_unset`. -/
def Niri.urgent_unset (n : Niri) (id : Nat) : Niri × List Json :=
  n.send_action (Json.obj [("UnsetWindowUrgent", Json.obj [("id", Json.num id)])])

/-- `Niri::foc_wspace`. -/
def Niri.foc_wspace (n : Niri) (r : WorkspaceReferenceArg) : Niri × List Json :=
  n.send_action (Json.obj [("FocusWorkspace", Json.obj [("reference", r)])])

/-- `Niri::foc_wspace_prev`. -/
def Niri.foc_wspace_prev (n : Niri) : Niri × List Json :=
  n.send_action (Json.obj [("FocusWorkspacePrevious", Json.obj [])])

/-- `Niri::wspace_d`. -/
def Niri.wspace_d (n : Niri) : Niri × List Json :=
  n.send_action (Json.obj [("FocusWorkspaceDown", Json.obj [])])

/-- `Niri::wspace_u`. -/
def Niri.wspace_u (n : Niri) : Niri × List Json :=
  n.send_action (Json.obj [("FocusWorkspaceUp", Json.obj [])])

/-- `Niri::mv_wspace_d`. -/
def Niri.mv_wspace_d (n : Niri) : Niri × List Json :=
  n.send_action (Json.obj [("MoveWorkspaceDown", Json.obj [])])

/-- `Niri::mv_wspace_u`. -/
def Niri.mv_wspace_u (n : Niri) : Niri × List Json :=
  n.send_action (Json.obj [("MoveWorkspaceUp", Json.obj [])])

/-- `Niri::mv_wspace_idx`. -/
def Niri.mv_wspace_idx (n : Niri) (idx : Nat) (r : Option WorkspaceReferenceArg) :
    Niri × List Json :=
  n.send_action (Json.obj [("MoveWorkspaceToIndex",
    Json.obj [("index", Json.num idx), ("reference", Json.ofOpt r)])])

/-- `Niri::mv_win_wspace`. -/
def Niri.mv_win_wspace (n : Niri) (id : Option Nat) (r : WorkspaceReferenceArg)
    (focus : Bool) : Niri × List Json :=
  n.send_action (Json.obj [("MoveWindowToWorkspace",
    Json.obj [("window_id", Json.ofOptNat id), ("reference", r), ("focus", Json.bool focus)])])

/-- `Niri::mv_win_wspace_d`. -/
def Niri.mv_win_wspace_d (n : Niri) (focus : Bool) : Niri × List Json :=
  n.send_action (Json.obj [("MoveWindowToWorkspaceDown", Json.obj [("focus", Json.bool focus)])])

/-- `Niri::mv_win_wspace_u`. -/
def Niri.mv_win_wspace_u (n : Niri) (focus : Bool) : Niri × List Json :=
  n.send_action (Json.obj [("MoveWindowToWorkspaceUp", Json.obj [("focus", Json.bool focus)])])

/-- `Niri::mv_col_wspace`. -/
def Niri.mv_col_wspace (n : Niri) (r : WorkspaceReferenceArg) (focus : Bool) :
    Niri × List Json :=
  n.send_action (Json.obj [("MoveColumnToWorkspace",
    Json.obj [("reference", r), ("focus", Json.bool focus)])])

/-- `Niri::mv_col_wspace_d`. -/
def Niri.mv_col_wspace_d (n : Niri) (focus : Bool) : Niri × List Json :=
  n.send_action (Json.obj [("MoveColumnToWorkspaceDown", Json.obj [("focus", Json.bool focus)])])

/-- `Niri::mv_col_wspace_u`. -/
def Niri.mv_col_wspace_u (n : Niri) (focus : Bool) : Niri × List Json :=
  n.send_action (Json.obj [("MoveColumnToWorkspaceUp", Json.obj [("focus", Json.bool focus)])])

/-- `Niri::name_wspace`. -/
def Niri.name_wspace (n : Niri) (name : String) (r : Option WorkspaceReferenceArg) :
    Niri × List Json :=
  n.send_action (Json.obj [("SetWorkspaceName",
    Json.obj [("name", Json.str name), ("workspace", Json.ofOpt r)])])

/-- `Niri::unname_wspace`. -/
def Niri.unname_wspace (n : Niri) (r : Option WorkspaceReferenceArg) : Niri × List Json :=
  n.send_action (Json.obj [("UnsetWorkspaceName", Json.obj [("reference", Json.ofOpt r)])])

/-- `Niri::monitor_l`. -/
def Niri.monitor_l (n : Niri) : Niri × List Json :=
  n.send_action (Json.obj [("FocusMonitorLeft", Json.obj [])])

/-- `Niri::monitor_r`. -/
def Niri.monitor_r (n : Niri) : Niri × List Json :=
  n.send_action (Json.obj [("FocusMonitorRight", Json.obj [])])

/-- `Niri::monitor_u`. -/
def Niri.monitor_u (n : Niri) : Niri × List Json :=
  n.send_action (Json.obj [("FocusMonitorUp", Json.obj [])])

/-- `Niri::monitor_d`. -/
def Niri.monitor_d (n : Niri) : Niri × List Json :=
  n.send_action (Json.obj [("FocusMonitorDown", Json.obj [])])

/-- `Niri::monitor_prev`. -/
def Niri.monitor_prev (n : Niri) : Niri × List Json :=
  n.send_action (Json.obj [("FocusMonitorPrevious", Json.obj [])])

/-- `Niri::monitor_next`. -/
def Niri.monitor_next (n : Niri) : Niri × List Json :=
  n.send_action (Json.obj [("FocusMonitorNext", Json.obj [])])

/-- `Niri::monitor_name`. -/
def Niri.monitor_name (n : Niri) (out : String) : Niri × List Json :=
  n.send_action (Json.obj [("FocusMonitor", Json.obj [("output", Json.str out)])])

/-- `Niri::monitors_off`. -/
def Niri.monitors_off (n : Niri) : Niri × List Json :=
  n.send_action (Json.obj [("PowerOffMonitors", Json.obj [])])

/-- `Niri::monitors_on`. -/
def Niri.monitors_on (n : Niri) : Niri × List Json :=
  n.send_action (Json.obj [("PowerOnMonitors", Json.obj [])])

/-- `Niri::mv_win_mon`. -/
def Niri.mv_win_mon (n : Niri) (id : Option Nat) (out : String) : Niri × List Json :=
  n.send_action (Json.obj [("MoveWindowToMonitor",
    Json.obj [("id", Json.ofOptNat id), ("output", Json.str out)])])

/-- `Niri::mv_win_mon_l`. -/
def Niri.mv_win_mon_l (n : Niri) : Niri × List Json :=
  n.send_action (Json.obj [("MoveWindowToMonitorLeft", Json.obj [])])

/-- `Niri::mv_win_mon_r`. -/
def Niri.mv_win_mon_r (n : Niri) : Niri × List Json :=
  n.send_action (Json.obj [("MoveWindowToMonitorRight", Json.obj [])])

/-- `Niri::mv_win_mon_u`. -/
def Niri.mv_win_mon_u (n : Niri) : Niri × List Json :=
  n.send_action (Json.obj [("MoveWindowToMonitorUp", Json.obj [])])

/-- `Niri::mv_win_mon_d`. -/
def Niri.mv_win_mon_d (n : Niri) : Niri × List Json :=
  n.send_action (Json.obj [("MoveWindowToMonitorDown", Json.obj [])])

/-- `Niri::mv_win_mon_prev`. -/
def Niri.mv_win_mon_prev (n : Niri) : Niri × List Json :=
  n.send_action (Json.obj [("MoveWindowToMonitorPrevious", Json.obj [])])

/-- `Niri::mv_win_mon_next`. -/
def Niri.mv_win_mon_next (n : Niri) : Niri × List Json :=
  n.send_action (Json.obj [("MoveWindowToMonitorNext", Json.obj [])])

/-- `Niri::mv_col_mon`. -/
def Niri.mv_col_mon (n : Niri) (out : String) : Niri × List Json :=
  n.send_action (Json.obj [("MoveColumnToMonitor", Json.obj [("output", Json.str out)])])

/-- `Niri::mv_col_mon_l`. -/
def Niri.mv_col_mon_l (n : Niri) : Niri × List Json :=
  n.send_action (Json.obj [("MoveColumnToMonitorLeft", Json.obj [])])

/-- `Niri::mv_col_mon_r`. -/
def Niri.mv_col_mon_r (n : Niri) : Niri × List Json :=
  n.send_action (Json.obj [("MoveColumnToMonitorRight", Json.obj [])])

/-- `Niri::mv_col_mon_u`. -/
def Niri.mv_col_mon_u (n : Niri) : Niri × List Json :=
  n.send_action (Json.obj [("MoveColumnToMonitorUp", Json.obj [])])

/-- `Niri::mv_col_mon_d`. -/
def Niri.mv_col_mon_d (n : Niri) : Niri × List Json :=
  n.send_action (Json.obj [("MoveColumnToMonitorDown", Json.obj [])])

/-- `Niri::mv_col_mon_prev`. -/
def Niri.mv_col_mon_prev (n : Niri) : Niri × List Json :=
  n.send_action (Json.obj [("MoveColumnToMonitorPrevious", Json.obj [])])

/-- `Niri::mv_col_mon_next`. -/
def Niri.mv_col_mon_next (n : Niri) : Niri × List Json :=
  n.send_action (Json.obj [("MoveColumnToMonitorNext", Json.obj [])])

/-- `Niri::mv_wspace_mon`. -/
def Niri.mv_wspace_mon (n : Niri) (out : String) (r : Option WorkspaceReferenceArg) :
    Niri × List Json :=
  n.send_action (Json.obj [("MoveWorkspaceToMonitor",
    Json.obj [("output", Json.str out), ("reference", Json.ofOpt r)])])

/-- `Niri::mv_wspace_mon_l`. -/
def Niri.mv_wspace_mon_l (n : Niri) : Niri × List Json :=
  n.send_action (Json.obj [("MoveWorkspaceToMonitorLeft", Json.obj [])])

/-- `Niri::mv_wspace_mon_r`. -/
def Niri.mv_wspace_mon_r (n : Niri) : Niri × List Json :=
  n.send_action (Json.obj [("MoveWorkspaceToMonitorRight", Json.obj [])])

/-- `Niri::mv_wspace_mon_u`. -/
def Niri.mv_wspace_mon_u (n : Niri) : Niri × List Json :=
  n.send_action (Json.obj [("MoveWorkspaceToMonitorUp", Json.obj [])])

/-- `Niri::mv_wspace_mon_d`. -/
def Niri.mv_wspace_mon_d (n : Niri) : Niri × List Json :=
  n.send_action (Json.obj [("MoveWorkspaceToMonitorDown", Json.obj [])])

/-- `Niri::mv_wspace_mon_prev`. -/
def Niri.mv_wspace_mon_prev (n : Niri) : Niri × List Json :=
  n.send_action (Json.obj [("MoveWorkspaceToMonitorPrevious", Json.obj [])])

/-- `Niri::mv_wspace_mon_next`. -/
def Niri.mv_wspace_mon_next (n : Niri) : Niri × List Json :=
  n.send_action (Json.obj [("MoveWorkspaceToMonitorNext", Json.obj [])])

/-- `Niri::snap`. -/
def Niri.snap (n : Niri) (pointer : Bool) (path : Option String) : Niri × List Json :=
  n.send_action (Json.obj [("Screenshot",
    Json.obj [("show_pointer", Json.bool pointer), ("path", Json.ofOptStr path)])])

/-- `Niri::snap_screen`. -/
def Niri.snap_screen (n : Niri) (disk pointer : Bool) (path : Option String) :
    Niri × List Json :=
  n.send_action (Json.obj [("ScreenshotScreen",
    Json.obj [("write_to_disk", Json.bool disk), ("show_pointer", Json.bool pointer),
      ("path", Json.ofOptStr path)])])

/-- `Niri::snap_win`. -/
def Niri.snap_win (n : Niri) (id : Option Nat) (disk : Bool) (path : Option String) :
    Niri × List Json :=
  n.send_action (Json.obj [("ScreenshotWindow",
    Json.obj [("id", Json.ofOptNat id), ("write_to_disk", Json.bool disk),
      ("path", Json.ofOptStr path)])])

/-- `Niri::cast_win`. -/
def Niri.cast_win (n : Niri) (id : Option Nat) : Niri × List Json :=
  n.send_action (Json.obj [("SetDynamicCastWindow", Json.obj [("id", Json.ofOptNat id)])])

/-- `Niri::cast_mon`. -/
def Niri.cast_mon (n : Niri) (out : Option String) : Niri × List Json :=
  n.send_action (Json.obj [("SetDynamicCastMonitor", Json.obj [("output", Json.ofOptStr out)])])

/-- `Niri::cast_clear`. -/
def Niri.cast_clear (n : Niri) : Niri × List Json :=
  n.send_action (Json.obj [("ClearDynamicCastTarget", Json.obj [])])

/-- `Niri::inhibit_shortcuts`. -/
def Niri.inhibit_shortcuts (n : Niri) : Niri × List Json :=
  n.send_action (Json.obj [("ToggleKeyboardShortcutsInhibit", Json.obj [])])

/-- `Niri::transition`. -/
def Niri.transition (n : Niri) (delay : Option Nat) : Niri × List Json :=
  n.send_action (Json.obj [("DoScreenTransition", Json.obj [("delay_ms", Json.ofOptNat delay)])])

/-- `Niri::hotkeys`. -/
def Niri.hotkeys (n : Niri) : Niri × List Json :=
  n.send_action (Json.obj [("ShowHotkeyOverlay", Json.obj [])])

/-- `Niri::overview_toggle`. -/
def Niri.overview_toggle (n : Niri) : Niri × List Json :=
  n.send_action (Json.obj [("ToggleOverview", Json.obj [])])

/-- `Niri::overview_open`. -/
def Niri.overview_open (n : Niri) : Niri × List Json :=
  n.send_action (Json.obj [("OpenOverview", Json.obj [])])

/-- `Niri::overview_close`. -/
def Niri.overview_close (n : Niri) : Niri × List Json :=
  n.send_action (Json.obj [("CloseOverview", Json.obj [])])

/-- `Niri::dbg_tint`. -/
def Niri.dbg_tint (n : Niri) : Niri × List Json :=
  n.send_action (Json.obj [("ToggleDebugTint", Json.obj [])])

/-- The source's `Niri::dbg_opaque` (renamed here): toggles opaque
region debugging. -/
def Niri.dbg_opaque_regions (n : Niri) : Niri × List Json :=
  n.send_action (Json.obj [("DebugToggleOpaqueRegions", Json.obj [])])

/-- `Niri::dbg_damage`. -/
def Niri.dbg_damage (n : Niri) : Niri × List Json :=
  n.send_action (Json.obj [("DebugToggleDamage", Json.obj [])])

/-- Enumeration of every fire-and-forget command verb of the client:
each constructor stands for one public method of `impl Niri` whose body
is a single `send_action` followed by `self` (everything except
`connect` and `spawn`, and the higher-order `call`). -/
inductive Verb where
  | spawn_args (cmd : List String)
  | sh (cmd : String)
  | quit (skip_confirm : Bool)
  | reload_config
  | foc_l
  | foc_r
  | foc_u
  | foc_d
  | foc_id (id : Nat)
  | foc_idx (idx : Nat)
  | foc_prev
  | foc_top
  | foc_bottom
  | foc_col_idx (idx : Nat)
  | foc_col_first
  | foc_col_last
  | foc_col_next_loop
  | foc_col_prev_loop
  | foc_win_mon_u
  | foc_win_mon_d
  | foc_col_mon_l
  | foc_col_mon_r
  | foc_d_col_l
  | foc_d_col_r
  | foc_u_col_l
  | foc_u_col_r
  | foc_wspace_d
  | foc_wspace_u
  | mv_win_u
  | mv_win_d
  | mv_win_u_wspace
  | mv_win_d_wspace
  | mv_col_l
  | mv_col_r
  | mv_col_first
  | mv_col_last
  | mv_col_idx (idx : Nat)
  | mv_col_l_mon
  | mv_col_r_mon
  | consume
  | consume_expel_l (id : Option Nat)
  | consume_expel_r (id : Option Nat)
  | expel
  | swap_l
  | swap_r
  | layout_switch (target : LayoutSwitchTarget)
  | toggle_tab
  | col_display (mode : ColumnDisplay)
  | center_col
  | center_win (id : Option Nat)
  | center_vis_cols
  | col_width (val : Float)
  | col_max
  | expand_col
  | preset_col_width
  | preset_col_width_back
  | win_width (id : Option Nat) (c : SizeChange)
  | win_height (val : Float)
  | reset_win_height (id : Option Nat)
  | max_win_edge (id : Option Nat)
  | preset_win_width (id : Option Nat)
  | preset_win_width_back (id : Option Nat)
  | preset_win_height (id : Option Nat)
  | preset_win_height_back (id : Option Nat)
  | close (id : Option Nat)
  | fullscreen (id : Option Nat)
  | fake_fullscreen (id : Option Nat)
  | opacity_toggle (id : Option Nat)
  | float_toggle (id : Option Nat)
  | mv_float (id : Option Nat)
  | mv_tile (id : Option Nat)
  | foc_float
  | foc_tile
  | foc_float_tile_switch
  | mv_float_win (id : Option Nat) (x y : PositionChange)
  | urgent_toggle (id : Nat)
  | urgent_set (id : Nat)
  | urgent_unset (id : Nat)
  | foc_wspace (r : WorkspaceReferenceArg)
  | foc_wspace_prev
  | wspace_d
  | wspace_u
  | mv_wspace_d
  | mv_wspace_u
  | mv_wspace_idx (idx : Nat) (r : Option WorkspaceReferenceArg)
  | mv_win_wspace (id : Option Nat) (r : WorkspaceReferenceArg) (focus : Bool)
  | mv_win_wspace_d (focus : Bool)
  | mv_win_wspace_u (focus : Bool)
  | mv_col_wspace (r : WorkspaceReferenceArg) (focus : Bool)
  | mv_col_wspace_d (focus : Bool)
  | mv_col_wspace_u (focus : Bool)
  | name_wspace (name : String) (r : Option WorkspaceReferenceArg)
  | unname_wspace (r : Option WorkspaceReferenceArg)
  | monitor_l
  | monitor_r
  | monitor_u
  | monitor_d
  | monitor_prev
  | monitor_next
  | monitor_name (out : String)
  | monitors_off
  | monitors_on
  | mv_win_mon (id : Option Nat) (out : String)
  | mv_win_mon_l
  | mv_win_mon_r
  | mv_win_mon_u
  | mv_win_mon_d
  | mv_win_mon_prev
  | mv_win_mon_next
  | mv_col_mon (out : String)
  | mv_col_mon_l
  | mv_col_mon_r
  | mv_col_mon_u
  | mv_col_mon_d
  | mv_col_mon_prev
  | mv_col_mon_next
  | mv_wspace_mon (out : String) (r : Option WorkspaceReferenceArg)
  | mv_wspace_mon_l
  | mv_wspace_mon_r
  | mv_wspace_mon_u
  | mv_wspace_mon_d
  | mv_wspace_mon_prev
  | mv_wspace_mon_next
  | snap (pointer : Bool) (path : Option String)
  | snap_screen (disk pointer : Bool) (path : Option String)
  | snap_win (id : Option Nat) (disk : Bool) (path : Option String)
  | cast_win (id : Option Nat)
  | cast_mon (out : Option String)
  | cast_clear
  | inhibit_shortcuts
  | transition (delay : Option Nat)
  | hotkeys
  | overview_toggle
  | overview_open
  | overview_close
  | dbg_tint
  | dbg_opaque_regions
  | dbg_damage

/-- Dispatch one fire-and-forget verb on the session, returning the
session and the documents written on the fresh connection. -/
def runVerb (v : Verb) (n : Niri) : Niri × List Json :=
  match v with
  | .spawn_args cmd => n.spawn_args cmd
  | .sh cmd => n.sh cmd
  | .quit skip_confirm => n.quit skip_confirm
  | .reload_config => n.reload_config
  | .foc_l => n.foc_l
  | .foc_r => n.foc_r
  | .foc_u => n.foc_u
  | .foc_d => n.foc_d
  | .foc_id id => n.foc_id id
  | .foc_idx idx => n.foc_idx idx
  | .foc_prev => n.foc_prev
  | .foc_top => n.foc_top
  | .foc_bottom => n.foc_bottom
  | .foc_col_idx idx => n.foc_col_idx idx
  | .foc_col_first => n.foc_col_first
  | .foc_col_last => n.foc_col_last
  | .foc_col_next_loop => n.foc_col_next_loop
  | .foc_col_prev_loop => n.foc_col_prev_loop
  | .foc_win_mon_u => n.foc_win_mon_u
  | .foc_win_mon_d => n.foc_win_mon_d
  | .foc_col_mon_l => n.foc_col_mon_l
  | .foc_col_mon_r => n.foc_col_mon_r
  | .foc_d_col_l => n.foc_d_col_l
  | .foc_d_col_r => n.foc_d_col_r
  | .foc_u_col_l => n.foc_u_col_l
  | .foc_u_col_r => n.foc_u_col_r
  | .foc_wspace_d => n.foc_wspace_d
  | .foc_wspace_u => n.foc_wspace_u
  | .mv_win_u => n.mv_win_u
  | .mv_win_d => n.mv_win_d
  | .mv_win_u_wspace => n.mv_win_u_wspace
  | .mv_win_d_wspace => n.mv_win_d_wspace
  | .mv_col_l => n.mv_col_l
  | .mv_col_r => n.mv_col_r
  | .mv_col_first => n.mv_col_first
  | .mv_col_last => n.mv_col_last
  | .mv_col_idx idx => n.mv_col_idx idx
  | .mv_col_l_mon => n.mv_col_l_mon
  | .mv_col_r_mon => n.mv_col_r_mon
  | .consume => n.consume
  | .consume_expel_l id => n.consume_expel_l id
  | .consume_expel_r id => n.consume_expel_r id
  | .expel => n.expel
  | .swap_l => n.swap_l
  | .swap_r => n.swap_r
  | .layout_switch target => n.layout_switch target
  | .toggle_tab => n.toggle_tab
  | .col_display mode => n.col_display mode
  | .center_col => n.center_col
  | .center_win id => n.center_win id
  | .center_vis_cols => n.center_vis_cols
  | .col_width val => n.col_width val
  | .col_max => n.col_max
  | .expand_col => n.expand_col
  | .preset_col_width => n.preset_col_width
  | .preset_col_width_back => n.preset_col_width_back
  | .win_width id c => n.win_width id c
  | .win_height val => n.win_height val
  | .reset_win_height id => n.reset_win_height id
  | .max_win_edge id => n.max_win_edge id
  | .preset_win_width id => n.preset_win_width id
  | .preset_win_width_back id => n.preset_win_width_back id
  | .preset_win_height id => n.preset_win_height id
  | .preset_win_height_back id => n.preset_win_height_back id
  | .close id => n.close id
  | .fullscreen id => n.fullscreen id
  | .fake_fullscreen id => n.fake_fullscreen id
  | .opacity_toggle id => n.opacity_toggle id
  | .float_toggle id => n.float_toggle id
  | .mv_float id => n.mv_float id
  | .mv_tile id => n.mv_tile id
  | .foc_float => n.foc_float
  | .foc_tile => n.foc_tile
  | .foc_float_tile_switch => n.foc_float_tile_switch
  | .mv_float_win id x y => n.mv_float_win id x y
  | .urgent_toggle id => n.urgent_toggle id
  | .urgent_set id => n.urgent_set id
  | .urgent_unset id => n.urgent_unset id
  | .foc_wspace r => n.foc_wspace r
  | .foc_wspace_prev => n.foc_wspace_prev
  | .wspace_d => n.wspace_d
  | .wspace_u => n.wspace_u
  | .mv_wspace_d => n.mv_wspace_d
  | .mv_wspace_u => n.mv_wspace_u
  | .mv_wspace_idx idx r => n.mv_wspace_idx idx r
  | .mv_win_wspace id r focus => n.mv_win_wspace id r focus
  | .mv_win_wspace_d focus => n.mv_win_wspace_d focus
  | .mv_win_wspace_u focus => n.mv_win_wspace_u focus
  | .mv_col_wspace r focus => n.mv_col_wspace r focus
  | .mv_col_wspace_d focus => n.mv_col_wspace_d focus
  | .mv_col_wspace_u focus => n.mv_col_wspace_u focus
  | .name_wspace name r => n.name_wspace name r
  | .unname_wspace r => n.unname_wspace r
  | .monitor_l => n.monitor_l
  | .monitor_r => n.monitor_r
  | .monitor_u => n.monitor_u
  | .monitor_d => n.monitor_d
  | .monitor_prev => n.monitor_prev
  | .monitor_next => n.monitor_next
  | .monitor_name out => n.monitor_name out
  | .monitors_off => n.monitors_off
  | .monitors_on => n.monitors_on
  | .mv_win_mon id out => n.mv_win_mon id out
  | .mv_win_mon_l => n.mv_win_mon_l
  | .mv_win_mon_r => n.mv_win_mon_r
  | .mv_win_mon_u => n.mv_win_mon_u
  | .mv_win_mon_d => n.mv_win_mon_d
  | .mv_win_mon_prev => n.mv_win_mon_prev
  | .mv_win_mon_next => n.mv_win_mon_next
  | .mv_col_mon out => n.mv_col_mon out
  | .mv_col_mon_l => n.mv_col_mon_l
  | .mv_col_mon_r => n.mv_col_mon_r
  | .mv_col_mon_u => n.mv_col_mon_u
  | .mv_col_mon_d => n.mv_col_mon_d
  | .mv_col_mon_prev => n.mv_col_mon_prev
  | .mv_col_mon_next => n.mv_col_mon_next
  | .mv_wspace_mon out r => n.mv_wspace_mon out r
  | .mv_wspace_mon_l => n.mv_wspace_mon_l
  | .mv_wspace_mon_r => n.mv_wspace_mon_r
  | .mv_wspace_mon_u => n.mv_wspace_mon_u
  | .mv_wspace_mon_d => n.mv_wspace_mon_d
  | .mv_wspace_mon_prev => n.mv_wspace_mon_prev
  | .mv_wspace_mon_next => n.mv_wspace_mon_next
  | .snap pointer path => n.snap pointer path
  | .snap_screen disk pointer path => n.snap_screen disk pointer path
  | .snap_win id disk path => n.snap_win id disk path
  | .cast_win id => n.cast_win id
  | .cast_mon out => n.cast_mon out
  | .cast_clear => n.cast_clear
  | .inhibit_shortcuts => n.inhibit_shortcuts
  | .transition delay => n.transition delay
  | .hotkeys => n.hotkeys
  | .overview_toggle => n.overview_toggle
  | .overview_open => n.overview_open
  | .overview_close => n.overview_close
  | .dbg_tint => n.dbg_tint
  | .dbg_opaque_regions => n.dbg_opaque_regions
  | .dbg_damage => n.dbg_damage

/-- The match test on a wrapped `WindowOpenedOrChanged` event. -/
lemma matchEvent_wocWrapped (a : String) (reg : Finset Nat) (i : Nat) (aid : String) :
    matchEvent a reg (wocWrapped i aid)
      = if i ∈ reg then none else if aid = a then some i else none := rfl

/-- The match test on a flat `WindowOpenedOrChanged` event. -/
lemma matchEvent_wocFlat (a : String) (reg : Finset Nat) (i : Nat) (aid : String) :
    matchEvent a reg (wocFlat i aid)
      = if i ∈ reg then none else if aid = a then some i else none := rfl

/-- An event carrying no `app_id` attribute never matches. -/
lemma matchEvent_wocNoApp (a : String) (reg : Finset Nat) (i : Nat) :
    matchEvent a reg (wocNoApp i) = none := by
  show (if i ∈ reg then none else none : Option Nat) = none
  simp

/-- A match is always an identifier that was not yet in the registry. -/
lemma matchEvent_not_mem (a : String) (reg : Finset Nat) (j : Json) (i : Nat)
    (h : matchEvent a reg j = some i) : i ∉ reg := by
  unfold matchEvent at h
  cases hw : j.get "WindowOpenedOrChanged" with
  | none => rw [hw] at h; exact absurd h (by simp)
  | some wrapper =>
    rw [hw] at h
    simp only at h
    cases hid : (((wrapper.get "window").getD wrapper).get "id").bind Json.as_u64 with
    | none => rw [hid] at h; exact absurd h (by simp)
    | some id =>
      rw [hid] at h
      simp only at h
      by_cases hmem : id ∈ reg
      · rw [if_pos hmem] at h; exact absurd h (by simp)
      · rw [if_neg hmem] at h
        cases haid : (((wrapper.get "window").getD wrapper).get "app_id").bind Json.as_str with
        | none => rw [haid] at h; exact absurd h (by simp)
        | some aid =>
          rw [haid] at h
          simp only at h
          by_cases heq : aid = a
          · rw [if_pos heq] at h
            obtain rfl : id = i := by simpa using h
            exact hmem
          · rw [if_neg heq] at h; exact absurd h (by simp)

/-- A prefix on which the correlation loop neither matches nor fails is
skipped whole: the loop continues into the remainder of the stream with
the registry untouched. -/
lemma spawnLoop_append (a : String) (reg : Finset Nat) (pre l : List StreamItem)
    (h : spawnLoop a reg pre = ⟨.exhausted, reg, []⟩) :
    spawnLoop a reg (pre ++ l) = spawnLoop a reg l := by
  induction pre with
  | nil => rfl
  | cons item t ih =>
    cases item with
    | readErr => exact absurd h (by simp [spawnLoop])
    | emptyLine => exact ih (by simpa [spawnLoop] using h)
    | malformed => exact ih (by simpa [spawnLoop] using h)
    | event j =>
      cases hm : matchEvent a reg j with
      | none =>
        have h2 : spawnLoop a reg t = ⟨.exhausted, reg, []⟩ := by
          simpa [spawnLoop, hm] using h
        simpa [spawnLoop, hm] using ih h2
      | some id => exact absurd h (by simp [spawnLoop, hm])

/-- Whenever the correlation loop returns with a match, the matched
identifier was not in the registry it started from, and the final
registry is the initial one plus exactly that identifier. -/
lemma spawnLoop_matched (a : String) (reg : Finset Nat) (l : List StreamItem)
    (i : Nat) (r : Finset Nat) (rest : List StreamItem)
    (h : spawnLoop a reg l = ⟨.matched i, r, rest⟩) :
    i ∉ reg ∧ r = insert i reg := by
  induction l with
  | nil => exact absurd h (by simp [spawnLoop])
  | cons item t ih =>
    cases item with
    | readErr => exact absurd h (by simp [spawnLoop])
    | emptyLine => exact ih (by simpa [spawnLoop] using h)
    | malformed => exact ih (by simpa [spawnLoop] using h)
    | event j =>
      cases hm : matchEvent a reg j with
      | none => exact ih (by simpa [spawnLoop, hm] using h)
      | some id =>
        simp only [spawnLoop, hm, LoopOut.mk.injEq, SpawnOutcome.matched.injEq] at h
        obtain ⟨rfl, rfl, rfl⟩ := h
        exact ⟨matchEvent_not_mem a reg j id hm, rfl⟩

/-- Inserting the ids `{"id": i}` of a window list grows the registry
by exactly the set of listed ids. -/
lemma insertIds_mkWin (reg : Finset Nat) (ids : List Nat) :
    insertIds reg (ids.map mkWin) = reg ∪ ids.toFinset := by
  induction ids generalizing reg with
  | nil => simp [insertIds]
  | cons i t ih =>
    have hstep : insertIds reg (mkWin i :: t.map mkWin) = insertIds (insert i reg) (t.map mkWin) := by
      rfl
    rw [List.map_cons, hstep, ih]
    rw [List.toFinset_cons, Finset.insert_union, Finset.union_insert]

/-- The bootstrap drain over a pure sequence of bulk events computes
the union of all listed identifiers. -/
lemma sync_loop_wcItems (reg : Finset Nat) (es : List (List Nat)) :
    (sync_loop reg (es.map wcItem)).1 = reg ∪ es.flatten.toFinset := by
  induction es generalizing reg with
  | nil => simp [sync_loop]
  | cons ids t ih =>
    have hstep : sync_loop reg (wcItem ids :: t.map wcItem)
        = sync_loop (insertIds reg (ids.map mkWin)) (t.map wcItem) := rfl
    rw [List.map_cons, hstep, insertIds_mkWin, ih]
    rw [List.flatten_cons, List.toFinset_append, Finset.union_assoc]

/-- The registry only grows while windows are inserted. -/
lemma insertIds_subset (reg : Finset Nat) (ws : List Json) :
    reg ⊆ insertIds reg ws := by
  induction ws generalizing reg with
  | nil => exact Finset.Subset.refl reg
  | cons w t ih =>
    unfold insertIds
    cases (w.get "id").bind Json.as_u64 with
    | none => exact ih reg
    | some id => exact (Finset.subset_insert id reg).trans (ih (insert id reg))

/-- The registry only grows during the bootstrap drain. -/
lemma sync_loop_subset (reg : Finset Nat) (l : List StreamItem) :
    reg ⊆ (sync_loop reg l).1 := by
  induction l generalizing reg with
  | nil => exact Finset.Subset.refl reg
  | cons item t ih =>
    cases item with
    | readErr => exact Finset.Subset.refl reg
    | emptyLine => exact Finset.Subset.refl reg
    | malformed => exact ih reg
    | event j =>
      show reg ⊆ (sync_loop reg (.event j :: t)).1
      unfold sync_loop
      cases (j.get "WindowsChanged").bind Json.as_array with
      | none => exact ih reg
      | some windows => exact (insertIds_subset reg windows).trans (ih _)

/-- The registry only grows during the spawn correlation loop. -/
lemma spawnLoop_subset (a : String) (reg : Finset Nat) (l : List StreamItem) :
    reg ⊆ (spawnLoop a reg l).reg := by
  induction l with
  | nil => exact Finset.Subset.refl reg
  | cons item t ih =>
    cases item with
    | readErr => exact Finset.Subset.refl reg
    | emptyLine => exact ih
    | malformed => exact ih
    | event j =>
      show reg ⊆ (spawnLoop a reg (.event j :: t)).reg
      unfold spawnLoop
      cases matchEvent a reg j with
      | none => exact ih
      | some id => exact Finset.subset_insert id reg

/-- A malformed line in the middle of the bootstrap drain never changes
the registry the drain computes. -/
lemma sync_loop_malformed (reg : Finset Nat) (pre post : List StreamItem) :
    (sync_loop reg (pre ++ .malformed :: post)).1 = (sync_loop reg (pre ++ post)).1 := by
  induction pre generalizing reg with
  | nil => rfl
  | cons item t ih =>
    cases item with
    | readErr => rfl
    | emptyLine => rfl
    | malformed => exact ih reg
    | event j =>
      show (sync_loop reg (.event j :: (t ++ .malformed :: post))).1
        = (sync_loop reg (.event j :: (t ++ post))).1
      unfold sync_loop
      cases (j.get "WindowsChanged").bind Json.as_array with
      | none => exact ih reg
      | some windows => exact ih _

/-- A malformed line in the middle of the stream changes neither the
outcome of the correlation loop nor the registry it ends with. -/
lemma spawnLoop_malformed (a : String) (reg : Finset Nat) (pre post : List StreamItem) :
    (spawnLoop a reg (pre ++ .malformed :: post)).outcome
        = (spawnLoop a reg (pre ++ post)).outcome
    ∧ (spawnLoop a reg (pre ++ .malformed :: post)).reg
        = (spawnLoop a reg (pre ++ post)).reg := by
  induction pre with
  | nil => exact ⟨rfl, rfl⟩
  | cons item t ih =>
    cases item with
    | readErr => exact ⟨rfl, rfl⟩
    | emptyLine => exact ih
    | malformed => exact ih
    | event j =>
      show (spawnLoop a reg (.event j :: (t ++ .malformed :: post))).outcome
          = (spawnLoop a reg (.event j :: (t ++ post))).outcome
        ∧ (spawnLoop a reg (.event j :: (t ++ .malformed :: post))).reg
          = (spawnLoop a reg (.event j :: (t ++ post))).reg
      unfold spawnLoop
      cases matchEvent a reg j with
      | none => exact ih
      | some id => exact ⟨rfl, rfl⟩

/-- Claim C1: with identifier W1 already in the Registry under program
identity X, a spawn for X that sees a WindowOpenedOrChanged event for
W1 with identity X, then possibly other non-terminating events, then
one for a fresh identifier W2 with identity X, skips the W1 event
without terminating and returns on the W2 event, committing W2 (never
W1) to the Registry. -/
theorem spec_C1 (a : String) (reg : Finset Nat) (w1 w2 : Nat) (mid post : List StreamItem)
    (h1 : w1 ∈ reg) (h2 : w2 ∉ reg)
    (hmid : spawnLoop a reg mid = ⟨.exhausted, reg, []⟩) :
    spawnLoop a reg (.event (wocWrapped w1 a) :: (mid ++ .event (wocWrapped w2 a) :: post))
      = ⟨.matched w2, insert w2 reg, post⟩ := by
  have hskip : matchEvent a reg (wocWrapped w1 a) = none := by
    rw [matchEvent_wocWrapped, if_pos h1]
  have hhit : matchEvent a reg (wocWrapped w2 a) = some w2 := by
    rw [matchEvent_wocWrapped, if_neg h2, if_pos rfl]
  calc spawnLoop a reg (.event (wocWrapped w1 a) :: (mid ++ .event (wocWrapped w2 a) :: post))
      = spawnLoop a reg (mid ++ .event (wocWrapped w2 a) :: post) := by
        simp only [spawnLoop, hskip]
    _ = spawnLoop a reg (.event (wocWrapped w2 a) :: post) := spawnLoop_append a reg mid _ hmid
    _ = ⟨.matched w2, insert w2 reg, post⟩ := by simp only [spawnLoop, hhit]

/-- Witness for C1 at Registry = the singleton of 1, W1 = 1, W2 = 2,
with a malformed line between the two events. -/
theorem spec_C1_witness :
    spawnLoop "X" {1} (.event (wocWrapped 1 "X")
        :: ([.malformed] ++ .event (wocWrapped 2 "X") :: []))
      = ⟨.matched 2, insert 2 {1}, []⟩ :=
  spec_C1 "X" {1} 1 2 [.malformed] [] (by decide) (by decide) rfl

/-- Claim C2: if the event-stream read fails before any match, the
correlation loop terminates without a match and the Registry is
unchanged. -/
theorem spec_C2 (a : String) (reg : Finset Nat) (pre post : List StreamItem)
    (h : spawnLoop a reg pre = ⟨.exhausted, reg, []⟩) :
    spawnLoop a reg (pre ++ .readErr :: post) = ⟨.streamFailed, reg, post⟩ := by
  rw [spawnLoop_append a reg pre _ h]
  rfl

/-- Witness for C2: a malformed line followed by a failed read. -/
theorem spec_C2_witness :
    spawnLoop "X" ∅ ([.malformed] ++ .readErr :: []) = ⟨.streamFailed, ∅, []⟩ :=
  spec_C2 "X" ∅ [.malformed] [] rfl

/-- Claim C3: for any sequence of bulk WindowsChanged events fed to the
bootstrap drain, the Registry after bootstrap equals the union of all
listed identifiers, and the result is unchanged under reordering or
duplication of the events. -/
theorem spec_C3 (es : List (List Nat)) :
    (sync_loop ∅ (es.map wcItem)).1 = es.flatten.toFinset
    ∧ ∀ es2 : List (List Nat), es2.flatten.toFinset = es.flatten.toFinset →
        (sync_loop ∅ (es2.map wcItem)).1 = (sync_loop ∅ (es.map wcItem)).1 := by
  constructor
  · rw [sync_loop_wcItems]; exact Finset.empty_union _
  · intro es2 h
    rw [sync_loop_wcItems, sync_loop_wcItems, h]

/-- Witness for C3: the events listing 1,2 then 2,3 yield the same
registry as the reordered, deduplicated events listing 3,2 then 1. -/
theorem spec_C3_witness :
    (sync_loop ∅ ([[1, 2], [2, 3]].map wcItem)).1 = [[1, 2], [2, 3]].flatten.toFinset
    ∧ (sync_loop ∅ ([[3, 2], [1]].map wcItem)).1 = (sync_loop ∅ ([[1, 2], [2, 3]].map wcItem)).1 :=
  ⟨(spec_C3 [[1, 2], [2, 3]]).1, (spec_C3 [[1, 2], [2, 3]]).2 [[3, 2], [1]] (by decide)⟩

/-- Claim C4: a spawn that returns with a match leaves the matched
identifier in the Registry, and a second spawn for the same identity
that matches again never matches the first identifier. -/
theorem spec_C4 (a : String) (reg : Finset Nat) (l : List StreamItem)
    (i : Nat) (r : Finset Nat) (rest : List StreamItem)
    (h : spawnLoop a reg l = ⟨.matched i, r, rest⟩) :
    i ∈ r ∧ ∀ (l2 : List StreamItem) (i2 : Nat) (r2 : Finset Nat) (rest2 : List StreamItem),
      spawnLoop a r l2 = ⟨.matched i2, r2, rest2⟩ → i2 ≠ i := by
  obtain ⟨-, rfl⟩ := spawnLoop_matched a reg l i r rest h
  refine ⟨Finset.mem_insert_self i reg, ?_⟩
  intro l2 i2 r2 rest2 h2 heq
  exact (spawnLoop_matched a _ l2 i2 r2 rest2 h2).1 (heq ▸ Finset.mem_insert_self i reg)

/-- Witness for C4: the first spawn matches identifier 1; a second
spawn over the grown registry matches 2, which differs from 1. -/
theorem spec_C4_witness : (1 : Nat) ∈ insert 1 (∅ : Finset Nat) ∧ (2 : Nat) ≠ 1 :=
  ⟨(spec_C4 "X" ∅ [.event (wocFlat 1 "X")] 1 (insert 1 ∅) [] rfl).1,
   (spec_C4 "X" ∅ [.event (wocFlat 1 "X")] 1 (insert 1 ∅) [] rfl).2
     [.event (wocFlat 2 "X")] 2 (insert 2 (insert 1 ∅)) [] rfl⟩

/-- Claim C5: a WindowOpenedOrChanged event with the fields nested
under the window key and one with the fields at the top level, carrying
the same id and app_id, give the correlation loop identical outcomes. -/
theorem spec_C5 (a : String) (reg : Finset Nat) (i : Nat) (s : String)
    (rest : List StreamItem) :
    spawnLoop a reg (.event (wocWrapped i s) :: rest)
      = spawnLoop a reg (.event (wocFlat i s) :: rest) := rfl

/-- Claim C6: a malformed line interleaved anywhere in the stream
neither aborts the bootstrap drain or the spawn correlation loop nor
changes the Registry either computes. -/
theorem spec_C6 (a : String) (reg : Finset Nat) (pre post : List StreamItem) :
    (sync_loop reg (pre ++ .malformed :: post)).1 = (sync_loop reg (pre ++ post)).1
    ∧ (spawnLoop a reg (pre ++ .malformed :: post)).outcome
        = (spawnLoop a reg (pre ++ post)).outcome
    ∧ (spawnLoop a reg (pre ++ .malformed :: post)).reg
        = (spawnLoop a reg (pre ++ post)).reg :=
  ⟨sync_loop_malformed reg pre post,
   (spawnLoop_malformed a reg pre post).1,
   (spawnLoop_malformed a reg pre post).2⟩

/-- Claim C7: during a spawn wait, an event for a fresh identifier with
no app_id attribute is not a match and leaves the loop state unchanged,
and a later event for the same identifier carrying the requested
identity matches it. -/
theorem spec_C7 (a : String) (reg : Finset Nat) (i : Nat)
    (mid post post2 : List StreamItem)
    (h : i ∉ reg) (hmid : spawnLoop a reg mid = ⟨.exhausted, reg, []⟩) :
    spawnLoop a reg (.event (wocNoApp i) :: post) = spawnLoop a reg post
    ∧ spawnLoop a reg (.event (wocNoApp i) :: (mid ++ .event (wocWrapped i a) :: post2))
        = ⟨.matched i, insert i reg, post2⟩ := by
  have hskip : matchEvent a reg (wocNoApp i) = none := matchEvent_wocNoApp a reg i
  constructor
  · simp only [spawnLoop, hskip]
  · have hhit : matchEvent a reg (wocWrapped i a) = some i := by
      rw [matchEvent_wocWrapped, if_neg h, if_pos rfl]
    calc spawnLoop a reg (.event (wocNoApp i) :: (mid ++ .event (wocWrapped i a) :: post2))
        = spawnLoop a reg (mid ++ .event (wocWrapped i a) :: post2) := by
          simp only [spawnLoop, hskip]
      _ = spawnLoop a reg (.event (wocWrapped i a) :: post2) := spawnLoop_append a reg mid _ hmid
      _ = ⟨.matched i, insert i reg, post2⟩ := by simp only [spawnLoop, hhit]

/-- Witness for C7 at identifier 3 over the registry of 1, with a
malformed line between the two reports of window 3. -/
theorem spec_C7_witness :
    spawnLoop "X" {1} (.event (wocNoApp 3) :: [.readErr]) = spawnLoop "X" {1} [.readErr]
    ∧ spawnLoop "X" {1} (.event (wocNoApp 3) :: ([.malformed] ++ .event (wocWrapped 3 "X") :: []))
        = ⟨.matched 3, insert 3 {1}, []⟩ :=
  spec_C7 "X" {1} 3 [.malformed] [.readErr] [] (by decide) rfl

/-- Claim C8: the Registry never shrinks: the bootstrap drain, the
spawn correlation loop, and every fire-and-forget verb end with a
registry containing the one they started from. -/
theorem spec_C8 :
    (∀ (reg : Finset Nat) (l : List StreamItem), reg ⊆ (sync_loop reg l).1)
    ∧ (∀ (a : String) (reg : Finset Nat) (l : List StreamItem), reg ⊆ (spawnLoop a reg l).reg)
    ∧ (∀ (v : Verb) (n : Niri), ((runVerb v n).1).seen_windows = n.seen_windows) :=
  ⟨sync_loop_subset, spawnLoop_subset, fun v n => by cases v <;> rfl⟩

/-- Claim C9: every fire-and-forget verb is a pure encode-and-dispatch:
it returns the session unchanged (registry and event-stream position
included) and writes exactly one JSON document, an Action envelope
around a single-verb object. -/
theorem spec_C9 (v : Verb) (n : Niri) :
    (runVerb v n).1 = n
    ∧ ∃ name inner, (runVerb v n).2 = [Json.obj [("Action", Json.obj [(name, inner)])]] := by
  cases v <;> exact ⟨rfl, _, _, rfl⟩

/-- Claim C10: during bootstrap only WindowsChanged events with an
array payload touch the Registry: any other well-formed event is
drained with no effect on the loop state. -/
theorem spec_C10 (reg : Finset Nat) (j : Json) (post : List StreamItem)
    (h : (j.get "WindowsChanged").bind Json.as_array = none) :
    sync_loop reg (.event j :: post) = sync_loop reg post := by
  show (match (j.get "WindowsChanged").bind Json.as_array with
    | none => sync_loop reg post
    | some windows => sync_loop (insertIds reg windows) post) = sync_loop reg post
  rw [h]

/-- Witness for C10: a WindowOpenedOrChanged event reported during the
bootstrap drain leaves the Registry untouched. -/
theorem spec_C10_witness :
    sync_loop ∅ [.event (wocWrapped 7 "term")] = sync_loop ∅ [] :=
  spec_C10 ∅ (wocWrapped 7 "term") [] rfl
